import Mathlib

/-!
Verification development for the `can_services` repository.

The repository is a Rust vehicle telemetry logger.  The parts embedded here are:

* `src/bin/carlogger_service/mod.rs` — the frame decoder `parse_frame` with its
  bit-field extractor `get_number`, and the log-line formatter `Logger::log`;
* `src/bin/recorder.rs` — the recording pipeline: the capturing loop with its
  idle-timeout countdown, line-count rotation, writer-error handling, and the
  writer worker closure.

Modelling conventions:

* machine integers (`u64`, `u8`, …) are `Nat` with explicit `%`/bound reasoning;
  two's-complement casts (`as i16`) are explicit functions into `Int`;
* `f32` arithmetic in the decoder is modelled over `ℚ` (the decoder only ever
  multiplies/divides small integer field values by constant scale factors, and
  every claim under scrutiny is about the algebraic formula, not rounding);
* `chrono` constructors (`from_yo_opt`, `from_ymd_opt`, `from_hms_opt`,
  `with_ymd_and_hms`) are modelled by their documented validity predicates on
  the calendar fields; the Rust code `unwrap()`s their results, so an invalid
  field combination is a panic, modelled as `Except.error ()`;
* the fallible decoder is `parse_frame : Nat → List Nat → Except Unit (Option ParsedFrame)`:
  `.error ()` is a panic of the Rust function, `.ok none` is Rust's `None`
  ("no measurement"), `.ok (some m)` is `Some(m)`.
-/

/-! ## Bit-field extraction (`get_number`, mod.rs lines 130-132)

Rust: `fn get_number(data: u64, offset: u8, size: u8) -> u64 {
         (data >> (64 - offset - size)) & ((1 << size) - 1) }`
In `Nat`, `>>>`, `<<<` and `&&&` agree with the u64 operations as long as the
shift amounts do not underflow and `1 << size` does not overflow, which is what
claim C10 is about. -/

def get_number (data offset size : Nat) : Nat :=
  (data >>> (64 - offset - size)) &&& ((1 <<< size) - 1)

/-- `u64::from_be_bytes` on an 8-byte slice (mod.rs line 136); bytes are `u8`,
so each is reduced mod 256. -/
def u64_from_be_bytes (bs : List Nat) : Nat :=
  bs.foldl (fun acc b => acc * 256 + b % 256) 0

/-- Rust `as i16` applied to a `u64`: truncate to 16 bits, reinterpret as
two's complement. -/
def i16_of_u64 (v : Nat) : Int :=
  if v % 65536 < 32768 then ((v % 65536 : Nat) : Int)
  else ((v % 65536 : Nat) : Int) - 65536

/-! ## Calendar validity (chrono, as `unwrap()`ed by parse_frame) -/

/-- Proleptic Gregorian leap year, as used by `chrono`. -/
def isLeapYear (y : Int) : Bool :=
  y % 4 == 0 && (y % 100 != 0 || y % 400 == 0)

def daysInYear (y : Int) : Nat := if isLeapYear y then 366 else 365

/-- `NaiveDate::from_yo_opt` succeeds iff the ordinal day is in range. -/
def yoValid (y : Int) (o : Nat) : Bool := decide (1 ≤ o ∧ o ≤ daysInYear y)

/-- `NaiveTime::from_hms_opt` succeeds iff hour/minute/second are in range. -/
def hmsValid (h m s : Nat) : Bool := decide (h ≤ 23 ∧ m ≤ 59 ∧ s ≤ 59)

def daysInMonth (y : Int) (m : Nat) : Nat :=
  if m = 2 then (if isLeapYear y then 29 else 28)
  else if m = 4 ∨ m = 6 ∨ m = 9 ∨ m = 11 then 30
  else 31

/-- `NaiveDate::from_ymd_opt` (and the date part of `Utc.with_ymd_and_hms`)
succeeds iff the month/day are a real calendar date. -/
def ymdValid (y : Int) (m d : Nat) : Bool :=
  decide (1 ≤ m ∧ m ≤ 12 ∧ 1 ≤ d ∧ d ≤ daysInMonth y m)

/-! ## Decoded measurements (`ParsedFrame`, mod.rs lines 103-128)

Numeric payloads of the variants are kept as the exact rational value the Rust
code computes before wrapping it in a `uom` unit type; the unit is recorded in
a comment.  Calendar variants keep the fields that the code passes to the
(validated) `chrono` constructors. -/

inductive CompassDirection
  | North | NorthEast | East | SouthEast | South | SouthWest | West | NorthWest
deriving DecidableEq, Repr

/-- `NaiveDateTime` built from `from_yo_opt` + `from_hms_opt` (id 0x084). -/
structure DateYO where
  year : Int
  ordinal : Nat
  hour : Nat
  minute : Nat
  second : Nat
deriving DecidableEq, Repr

/-- `DateTime<Utc>` built from `with_ymd_and_hms` (id 0x466). -/
structure DateYmdHms where
  year : Int
  month : Nat
  day : Nat
  hour : Nat
  minute : Nat
  second : Nat
deriving DecidableEq, Repr

/-- `NaiveDateTime` built from `from_ymd_opt` + `from_hms_opt(h, m, 0)`
(ids 0x472/0x473). -/
structure DateYmdHm where
  year : Int
  month : Nat
  day : Nat
  hour : Nat
  minute : Nat
deriving DecidableEq, Repr

inductive ParsedFrame
  | _084 (dt : DateYO)
  | _091 (pitch roll yaw : ℚ)                -- radian/second
  | _092 (lateral longitudinal vertical : ℚ) -- meter/second²
  | _217 (fl fr rl rr : ℚ)                   -- revolution/minute
  | _352 (electric_range : ℚ)                -- hectometer
  | _368 (ac_power_w other_power_w : ℚ)      -- watt
  | _37B (gas_range : ℚ)                     -- hectometer
  | _430 (odometer : ℚ)                      -- kilometer
  | _43D (accessory_battery_v : ℚ)           -- hectovolt
  | _465 (latitude longitude : ℚ)            -- degrees (geoutils Location)
  | _466 (dt : DateYmdHms)
  | _467 (direction : CompassDirection) (compass_heading gps_vehicle_speed : ℚ)
      -- degrees, mile/hour
  | _472 (dt : DateYmdHm)
  | _473 (dt : DateYmdHm)
deriving DecidableEq

/-! ## The decoder, one definition per `match` arm of `parse_frame`
(mod.rs lines 135-264).  Each takes the 64-bit big-endian payload word. -/

/-- id 0x084, local clock time (lines 138-146): year bias +2000, ordinal date. -/
def parse084 (data : Nat) : Except Unit (Option ParsedFrame) :=
  let year : Int := (get_number data 0 8 : Int) + 2000
  let ordinal : Nat := get_number data 16 16
  let hour : Nat := get_number data 48 8
  let minute : Nat := get_number data 32 8
  let second : Nat := get_number data 40 8
  if yoValid year ordinal && hmsValid hour minute second then
    .ok (some (._084 ⟨year, ordinal, hour, minute, second⟩))
  else .error ()

/-- id 0x091, gyroscope (lines 147-153): `(field as i16 - 6.5) / 10000`. -/
def parse091 (data : Nat) : Except Unit (Option ParsedFrame) :=
  let pitch : Int := i16_of_u64 (get_number data 7 16)
  let roll : Int := i16_of_u64 (get_number data 23 16)
  let yaw : Int := i16_of_u64 (get_number data 39 16)
  .ok (some (._091 (((pitch : ℚ) - 13/2) / 10000) (((roll : ℚ) - 13/2) / 10000)
    (((yaw : ℚ) - 13/2) / 10000)))

/-- id 0x092, accelerometer (lines 154-160): `(field as i16 - 40) / 100`. -/
def parse092 (data : Nat) : Except Unit (Option ParsedFrame) :=
  let lateral : Int := i16_of_u64 (get_number data 4 13) - 40
  let longitudinal : Int := i16_of_u64 (get_number data 20 13) - 40
  let vertical : Int := i16_of_u64 (get_number data 36 13) - 40
  .ok (some (._092 ((lateral : ℚ) / 100) ((longitudinal : ℚ) / 100)
    ((vertical : ℚ) / 100)))

/-- id 0x217, wheel rotation speed (lines 161-168): `field / 10` rpm. -/
def parse217 (data : Nat) : Except Unit (Option ParsedFrame) :=
  .ok (some (._217 ((get_number data 0 16 : ℚ) / 10) ((get_number data 16 16 : ℚ) / 10)
    ((get_number data 32 16 : ℚ) / 10) ((get_number data 48 16 : ℚ) / 10)))

/-- id 0x352, electric range (lines 169-172). -/
def parse352 (data : Nat) : Except Unit (Option ParsedFrame) :=
  .ok (some (._352 (get_number data 12 12 : ℚ)))

/-- id 0x368, power usage (lines 173-178): `field * 5` watts. -/
def parse368 (data : Nat) : Except Unit (Option ParsedFrame) :=
  .ok (some (._368 (get_number data 6 10 * 5 : ℚ) (get_number data 38 10 * 5 : ℚ)))

/-- id 0x37B, gas range (lines 179-183). -/
def parse37B (data : Nat) : Except Unit (Option ParsedFrame) :=
  .ok (some (._37B (get_number data 48 14 : ℚ)))

/-- id 0x430, odometer (lines 184-188). -/
def parse430 (data : Nat) : Except Unit (Option ParsedFrame) :=
  .ok (some (._430 (get_number data 8 24 : ℚ)))

/-- id 0x43D, accessory battery voltage (lines 189-193). -/
def parse43D (data : Nat) : Except Unit (Option ParsedFrame) :=
  .ok (some (._43D (get_number data 48 8 : ℚ)))

/-- id 0x465, GPS position (lines 194-215).  Degrees are bias-subtracted
(89 for latitude, 179 for longitude); minutes (plus fractional minutes scaled
by 0.0001) divided by 60 are added for non-negative degrees, subtracted for
negative degrees. -/
def parse465 (data : Nat) : Except Unit (Option ParsedFrame) :=
  let lat : Int := i16_of_u64 (get_number data 0 8) - 89
  let lat_minutes : ℚ := (get_number data 8 6 : ℚ) + (get_number data 16 14 : ℚ) * (1 / 10000)
  let lat_mins : ℚ := lat_minutes / 60
  let latitude : ℚ := if lat < 0 then (lat : ℚ) - lat_mins else (lat : ℚ) + lat_mins
  let lon : Int := i16_of_u64 (get_number data 32 9) - 179
  let lon_minutes : ℚ := (get_number data 41 6 : ℚ) + (get_number data 48 14 : ℚ) * (1 / 10000)
  let lon_mins : ℚ := lon_minutes / 60
  let longitude : ℚ := if lon < 0 then (lon : ℚ) - lon_mins else (lon : ℚ) + lon_mins
  .ok (some (._465 latitude longitude))

/-- id 0x466, GPS time (lines 216-225): day/month fields +1, year +2010. -/
def parse466 (data : Nat) : Except Unit (Option ParsedFrame) :=
  let hour : Nat := get_number data 0 5
  let minute : Nat := get_number data 8 6
  let second : Nat := get_number data 16 6
  let day : Nat := get_number data 34 5 + 1
  let month : Nat := get_number data 39 5 + 1
  let year : Int := (get_number data 45 8 : Int) + 2010
  if ymdValid year month day && hmsValid hour minute second then
    .ok (some (._466 ⟨year, month, day, hour, minute, second⟩))
  else .error ()

/-- id 0x467, GPS heading/speed (lines 226-242); 3-bit compass octant with
out-of-range values defaulting to North (unreachable for a 3-bit field). -/
def parse467 (data : Nat) : Except Unit (Option ParsedFrame) :=
  let direction : CompassDirection :=
    match get_number data 17 3 with
    | 0 => .North
    | 1 => .NorthEast
    | 2 => .East
    | 3 => .SouthEast
    | 4 => .South
    | 5 => .SouthWest
    | 6 => .West
    | 7 => .NorthWest
    | _ => .North
  .ok (some (._467 direction ((get_number data 24 16 : ℚ) / 100)
    (get_number data 40 8 : ℚ)))

/-- ids 0x472/0x473, charge finish/start time (lines 243-260): year +2010,
time-of-day seconds fixed to 0. -/
def parseCharge (data : Nat) : Except Unit (Option DateYmdHm) :=
  let minute : Nat := get_number data 24 8
  let hour : Nat := get_number data 32 8
  let day : Nat := get_number data 40 8
  let month : Nat := get_number data 48 8
  let year : Int := (get_number data 56 8 : Int) + 2010
  if ymdValid year month day && hmsValid hour minute 0 then
    .ok (some ⟨year, month, day, hour, minute⟩)
  else .error ()

/-- The `match frame.id_word()` dispatch of `parse_frame` (mod.rs line 137);
a `match` on integer literals, written as the equivalent chain of equality
tests.  Unrecognized identifiers fall through to `.ok none`. -/
def parseById (id : Nat) (data : Nat) : Except Unit (Option ParsedFrame) :=
  if id = 0x084 then parse084 data
  else if id = 0x091 then parse091 data
  else if id = 0x092 then parse092 data
  else if id = 0x217 then parse217 data
  else if id = 0x352 then parse352 data
  else if id = 0x368 then parse368 data
  else if id = 0x37B then parse37B data
  else if id = 0x430 then parse430 data
  else if id = 0x43D then parse43D data
  else if id = 0x465 then parse465 data
  else if id = 0x466 then parse466 data
  else if id = 0x467 then parse467 data
  else if id = 0x472 then (parseCharge data).map (fun o => o.map (._472 ·))
  else if id = 0x473 then (parseCharge data).map (fun o => o.map (._473 ·))
  else .ok none

/-- `parse_frame` (mod.rs lines 135-264).  Before the id dispatch the code does
`u64::from_be_bytes(frame.data().try_into().unwrap())`, which panics whenever
the payload is not exactly 8 bytes. -/
def parse_frame (id : Nat) (payload : List Nat) : Except Unit (Option ParsedFrame) :=
  if payload.length = 8 then parseById id (u64_from_be_bytes payload)
  else .error ()

instance instDecEqExcept {ε α : Type} [DecidableEq ε] [DecidableEq α] :
    DecidableEq (Except ε α) := fun a b =>
  match a, b with
  | .error e, .error f =>
      if h : e = f then isTrue (congrArg Except.error h)
      else isFalse fun c => h (Except.error.inj c)
  | .ok x, .ok y =>
      if h : x = y then isTrue (congrArg Except.ok h)
      else isFalse fun c => h (Except.ok.inj c)
  | .error _, .ok _ => isFalse fun c => Except.noConfusion c
  | .ok _, .error _ => isFalse fun c => Except.noConfusion c

/-- The recognized arbitration identifiers (the literal arms of the `match`). -/
def recognized_ids : List Nat :=
  [0x084, 0x091, 0x092, 0x217, 0x352, 0x368, 0x37B, 0x430, 0x43D,
   0x465, 0x466, 0x467, 0x472, 0x473]

/-- The identifiers whose decode `unwrap()`s a fallible chrono constructor. -/
def calendar_ids : List Nat := [0x084, 0x466, 0x472, 0x473]

/-! ## Log-line formatting (`Logger::log`, mod.rs lines 66-96)

Frames are modelled by their identifier, extended flag, kind and payload bytes;
the repository consistently uses `id_word()` as the bare arbitration id (it
matches it against literals such as `0x465`).  The timestamp `Duration` enters
`log` only through `as_micros()`, so it is modelled as its microsecond count. -/

inductive FrameKind
  | data | remote | error
deriving DecidableEq, Repr

structure CanFrame where
  id : Nat
  extended : Bool
  kind : FrameKind
  payload : List Nat
deriving DecidableEq, Repr

/-- One uppercase hexadecimal digit (0-15). -/
def hexDigitU (n : Nat) : Char :=
  if n < 10 then Char.ofNat (48 + n) else Char.ofNat (55 + n)

/-- Digit accumulator with explicit fuel (structural recursion, in the style of
core's `Nat.toDigitsCore`). -/
def hexCharsUCore : Nat → Nat → List Char → List Char
  | _, 0, acc => acc
  | n, fuel + 1, acc =>
      if n = 0 then acc
      else hexCharsUCore (n / 16) fuel (hexDigitU (n % 16) :: acc)

/-- Uppercase hex digits of `n`, most significant first; empty for 0
(Rust's `{:X}` of 0 prints "0", but `Logger::log` always pads to width
at least 3, so the padded results agree). -/
def hexCharsU (n : Nat) : List Char := hexCharsUCore n (n + 1) []

/-- Rust `{:0width$X}`: uppercase hex, left-padded with zeros to `width`. -/
def hexPadU (n width : Nat) : String :=
  let ds := hexCharsU n
  (List.replicate (width - ds.length) '0' ++ ds).asString

/-- Rust `{:06}`-style decimal with zero left-padding. -/
def decimalPad (n width : Nat) : String :=
  let s := Nat.repr n
  (List.replicate (width - s.length) '0').asString ++ s

/-- `hex::encode_upper` of a byte slice: two uppercase digits per byte. -/
def encodeHexU (bs : List Nat) : String :=
  ((bs.map fun b => [hexDigitU (b / 16 % 16), hexDigitU (b % 16)]).flatten).asString

/-- `Logger::log` body text (mod.rs lines 66-94): header
`(<sec>.<usec:06>) <iface>` followed by the per-kind body.  Error frames are
written exactly like data frames ("a plain python canutils-style error"),
remote frames get body `R`. -/
def logLine (iface : String) (f : CanFrame) (tMicros : Nat) : String :=
  let header : String :=
    "(" ++ Nat.repr (tMicros / 1000000) ++ "." ++ decimalPad (tMicros % 1000000) 6 ++ ") " ++ iface
  match f.kind with
  | .error =>
      if f.extended then header ++ " " ++ hexPadU f.id 8 ++ "#" ++ encodeHexU f.payload ++ "\n"
      else header ++ " " ++ hexPadU f.id 3 ++ "#" ++ encodeHexU f.payload ++ "\n"
  | .remote =>
      if f.extended then header ++ " " ++ hexPadU f.id 8 ++ "#" ++ "R" ++ "\n"
      else header ++ " " ++ hexPadU f.id 3 ++ "#" ++ "R" ++ "\n"
  | .data =>
      if f.extended then header ++ " " ++ hexPadU f.id 8 ++ "#" ++ encodeHexU f.payload ++ "\n"
      else header ++ " " ++ hexPadU f.id 3 ++ "#" ++ encodeHexU f.payload ++ "\n"

/-- The spec's byte-exact template, written from its words (spec §6 / claim C3):
`(<sec>.<usec:06>) <iface> <ID>#<BODY>\n`, the ID as 3 zero-padded uppercase
hex digits for standard identifiers and 8 for extended, BODY = `R` for remote
frames and the uppercase-hex payload for data frames.  (The error-frame BODY is
left as the payload hex, matching this deployment; claim C3 only constrains
data and remote frames.) -/
def logLineSpec (iface : String) (f : CanFrame) (tMicros : Nat) : String :=
  "(" ++ Nat.repr (tMicros / 1000000) ++ "." ++ decimalPad (tMicros % 1000000) 6 ++ ") " ++ iface
    ++ " " ++ hexPadU f.id (if f.extended then 8 else 3) ++ "#"
    ++ (match f.kind with
        | .remote => "R"
        | _ => encodeHexU f.payload)
    ++ "\n"

/-! ## The recording pipeline (`recorder.rs`, `main`)

The control loop of `main` is embedded as a step function.  Inputs of one
capturing-loop iteration:

* the state of the worker-error queue `erx.try_recv()` (a report, empty, or
  disconnected);
* the result of `can.read_frame()` together with the wall-clock reading
  `SystemTime::now().duration_since(UNIX_EPOCH)` taken right after a
  successful read (modelled as a `Nat`, microseconds);
* whether the forward channel still has a live receiver (`workerAlive`:
  `tx.send` returns `Err` exactly when the worker is gone).

Outputs: the successor state plus the `LogMessage`s sent to the worker this
iteration, or a `rotate` (the Rust `break` out of the capturing loop, after
which `main` sends `Exit` and returns to waiting for a first frame), or `die`
(a `panic!`, terminating the process). -/

/-- Control→worker messages (recorder.rs lines 17-22). -/
inductive LogMessage
  | ping
  | frame (f : CanFrame) (t : Nat)
  | flush
  | exit
deriving DecidableEq, Repr

/-- Worker→control reports (recorder.rs lines 25-30): `Error(String)` (used for
the zero-byte "WriterDegenerate" write), `CANError` (an Error-kind frame), and
`IOError` (disk failure). -/
inductive WriterError
  | error (msg : String)
  | canError
  | ioError
deriving DecidableEq, Repr

/-- State of the capturing loop: the idle countdown `timeout` (recorder.rs
line 172) and `current_log_lines` (lines 92/169/299). -/
structure CapState where
  timeout : Nat
  lines : Nat
deriving DecidableEq, Repr

/-- Result of `erx.try_recv()` (recorder.rs line 189). -/
inductive ErrQueue
  | recv (e : WriterError)
  | empty
  | disconnected
deriving DecidableEq, Repr

/-- Result of `can.read_frame()` plus the clock reading attached on success. -/
inductive ReadResult
  | frame (f : CanFrame) (clock : Nat)
  | timedOut
  | interrupted
  | fatal
deriving DecidableEq, Repr

inductive StepResult
  | cont (s : CapState) (sent : List LogMessage)
  | rotate (sent : List LogMessage)
  | die (sent : List LogMessage)
deriving DecidableEq, Repr

/-- One iteration of the capturing loop (recorder.rs lines 185-306), for
configured idle timeout `T` (seconds; the read timeout is 500 ms) and line
ceiling `maxLines`:

* the error queue is drained first (lines 189-210): a `WriterError::Error` or
  `WriterError::IOError` report, or a disconnected queue, `break`s (rotates);
  a `CANError` report is only printed;
* a successful read (lines 215-233) attaches the raw clock reading, reseeds
  the countdown to `T*2`, and forwards the frame; a failed send `break`s
  (lines 268-272); then `current_log_lines` is incremented and reaching
  `max_log_lines` `break`s after the frame was forwarded (lines 299-305);
* a timed-out read (lines 234-256) `break`s if the countdown is 0, otherwise
  decrements it and sends `Flush` exactly when it just reached `T*2 - 2`;
* an interrupted read retries; any other read error is `panic!`. -/
def capStep (T maxLines : Nat) (workerAlive : Bool) (s : CapState)
    (q : ErrQueue) (rd : ReadResult) : StepResult :=
  match q with
  | .recv (.error _) => .rotate []
  | .recv .ioError => .rotate []
  | .disconnected => .rotate []
  | _ =>
    match rd with
    | .frame f clock =>
        if workerAlive then
          let s' : CapState := ⟨T * 2, s.lines + 1⟩
          if s'.lines ≥ maxLines then .rotate [.frame f clock, .exit]
          else .cont s' [.frame f clock]
        else .rotate []
    | .timedOut =>
        if s.timeout = 0 then .rotate []
        else
          let t' := s.timeout - 1
          if t' = T * 2 - 2 then
            if workerAlive then .cont ⟨t', s.lines⟩ [.flush]
            else .rotate []
          else .cont ⟨t', s.lines⟩ []
    | .interrupted => .cont s []
    | .fatal => .die []

/-- Top-level mode of `main`: waiting for a first frame (recorder.rs lines
84-111), capturing (lines 185-306), or terminated by a `panic!`. -/
inductive Mode
  | idle
  | capturing (s : CapState)
  | dead
deriving DecidableEq, Repr

/-- One iteration of `main`'s loops.  From `idle`, a first frame opens a log,
forwards the frame (line 168), sets `current_log_lines` to 1 (line 169) and
seeds the countdown at `T*2` (line 172).  From `capturing`, a `break` of the
inner loop sends `Exit` (line 308) and returns to waiting for a first frame
(line 313). -/
def pipeStep (T maxLines : Nat) (workerAlive : Bool) (m : Mode)
    (q : ErrQueue) (rd : ReadResult) : Mode × List LogMessage :=
  match m with
  | .idle =>
      match rd with
      | .frame f clock => (.capturing ⟨T * 2, 1⟩, [.frame f clock])
      | .timedOut => (.idle, [])
      | .interrupted => (.idle, [])
      | .fatal => (.dead, [])
  | .capturing s =>
      match capStep T maxLines workerAlive s q rd with
      | .cont s' sent => (.capturing s', sent)
      | .rotate sent => (.idle, sent ++ [.exit])
      | .die sent => (.dead, sent)
  | .dead => (.dead, [])

/-! ## The writer worker (recorder.rs lines 124-166)

The worker loop receives `LogMessage`s; its environment is the outcome of
`logger.log` / `logger.flush` (`logRes`, `flushOk`) and whether the report
channel `etx` still has a live receiver (`reportsAlive`).  Its state is the
sequence of (frame, timestamp) lines successfully written to the file. -/

/-- Outcome of `logger.log(frame, t)`: `Ok(bytes)` or an I/O error. -/
inductive LogResult
  | ok (bytes : Nat)
  | ioErr
deriving DecidableEq, Repr

structure WorkerState where
  file : List (CanFrame × Nat)
deriving DecidableEq, Repr

inductive WorkerOut
  | cont (st : WorkerState) (reports : List WriterError)
  | stop (st : WorkerState) (reports : List WriterError)
deriving DecidableEq, Repr

/-- One `rx.recv()` round of the worker loop (recorder.rs lines 127-164);
`none` models a closed message channel (`rx.recv()` returning `Err`).

* An Error-kind frame is first reported as `CANError` ("Bubble up the error to
  the main thread but don't exit", line 132); if that report cannot be sent the
  worker exits before logging.  The frame is then logged like any other.
* `logger.log` returning `Ok(0)` sends `Error("Wrote 0 bytes to log")` and
  exits; an I/O error sends `IOError` and exits; a flush failure sends
  `IOError` and exits. -/
def workerStep (logRes : CanFrame → Nat → LogResult) (flushOk reportsAlive : Bool)
    (st : WorkerState) (msg : Option LogMessage) : WorkerOut :=
  match msg with
  | none => .stop st []
  | some .ping => .cont st []
  | some (.frame f t) =>
      if f.kind = .error ∧ reportsAlive = false then .stop st []
      else
        let reports : List WriterError := if f.kind = .error then [.canError] else []
        match logRes f t with
        | .ok 0 => .stop st (reports ++ [.error "Wrote 0 bytes to log"])
        | .ok _ => .cont ⟨st.file ++ [(f, t)]⟩ reports
        | .ioErr => .stop st (reports ++ [.ioError])
  | some .flush => if flushOk then .cont st [] else .stop st [.ioError]
  | some .exit => .stop st []

/-! ## Derived runs of the capturing loop -/

/-- `n` consecutive loop iterations in which every read times out and the error
queue stays empty (bus silence with a healthy worker): per-iteration lists of
sent messages, plus whether the loop `break`ed (rotated) within the `n`
iterations.  The run stops at the first rotate. -/
def idleTicks (T maxLines : Nat) : CapState → Nat → List (List LogMessage) × Bool
  | _, 0 => ([], false)
  | s, n + 1 =>
      match capStep T maxLines true s .empty .timedOut with
      | .cont s' sent =>
          let r := idleTicks T maxLines s' n
          (sent :: r.1, r.2)
      | .rotate sent => ([sent], true)
      | .die sent => ([sent], true)

/-- A run of the capturing loop over a list of read results with an empty error
queue and a healthy worker, collecting all messages sent to the worker in
order; the run stops when the loop rotates. -/
def capRun (T maxLines : Nat) (s : CapState) : List ReadResult → List LogMessage
  | [] => []
  | rd :: rest =>
      match capStep T maxLines true s .empty rd with
      | .cont s' sent => sent ++ capRun T maxLines s' rest
      | .rotate sent => sent
      | .die sent => sent

/-- The timestamps of the `Frame` messages in a sent-message list. -/
def sentTimestamps (sent : List LogMessage) : List Nat :=
  sent.filterMap fun m =>
    match m with
    | .frame _ t => some t
    | _ => none

/-- The clock readings attached to successful reads, in order. -/
def readClocks (reads : List ReadResult) : List Nat :=
  reads.filterMap fun rd =>
    match rd with
    | .frame _ c => some c
    | _ => none

/-- Boolean "non-decreasing" check on a list of timestamps. -/
def nonDecr : List Nat → Bool
  | [] => true
  | [_] => true
  | a :: b :: r => a ≤ b && nonDecr (b :: r)

/-! ## File contents under continuous traffic (for the line-count ceiling)

`main` forwards the first frame before entering the capturing loop with
`current_log_lines = 1` (recorder.rs lines 168-169); inside the loop each
forwarded frame increments the counter and the loop rotates when the counter
reaches `max_log_lines` (lines 299-305).  With frames arriving on every read,
the frames (with their timestamps) landing in each successive log file are: -/

/-- Frames added to the open file by the capturing loop, starting from line
count `lines`; returns (frames of this file, frames left for later files). -/
def fillFile (maxLines : Nat) : Nat → List (CanFrame × Nat) →
    List (CanFrame × Nat) × List (CanFrame × Nat)
  | _, [] => ([], [])
  | lines, f :: rest =>
      if lines + 1 ≥ maxLines then ([f], rest)
      else
        let r := fillFile maxLines (lines + 1) rest
        (f :: r.1, r.2)

theorem fillFile_rest_length (maxLines : Nat) :
    ∀ (lines : Nat) (fs : List (CanFrame × Nat)),
      (fillFile maxLines lines fs).2.length ≤ fs.length := by
  intro lines fs
  induction fs generalizing lines with
  | nil => simp [fillFile]
  | cons f rest ih =>
      simp only [fillFile]
      split
      · simp
      · simpa using  .trans (ih (lines + 1)) (Nat.le_succ _)

/-- The successive log files (as lists of (frame, timestamp) lines) produced
when the listed frames arrive back to back: the first frame of each file is
forwarded from the idle state with the counter at 1. -/
def runFiles (maxLines : Nat) (frames : List (CanFrame × Nat)) :
    List (List (CanFrame × Nat)) :=
  match frames with
  | [] => []
  | f :: rest =>
      let r := fillFile maxLines 1 rest
      (f :: r.1) :: runFiles maxLines r.2
termination_by frames.length
decreasing_by
  calc (fillFile maxLines 1 rest).2.length ≤ rest.length := fillFile_rest_length _ _ _
    _ < (f :: rest).length := by simp

/-! # Helper lemmas -/

theorem get_number_eq_div_mod (d o w : Nat) :
    get_number d o w = d / 2 ^ (64 - o - w) % 2 ^ w := by
  unfold get_number
  rw [Nat.shiftLeft_eq, one_mul, Nat.and_pow_two_sub_one_eq_mod,
    Nat.shiftRight_eq_div_pow]

theorem get_number_lt (d o w : Nat) : get_number d o w < 2 ^ w := by
  rw [get_number_eq_div_mod]
  exact Nat.mod_lt _ (Nat.two_pow_pos w)

theorem i16_of_u64_small (v : Nat) (h : v < 32768) : i16_of_u64 v = (v : Int) := by
  unfold i16_of_u64
  rw [Nat.mod_eq_of_lt (lt_trans h (by norm_num))]
  rw [if_pos h]

/-- The spec's GPS coordinate formula, written from its words (claim C1):
`degrees + (minutes + frac*0.0001)/60`, the minutes term added when the
integer-degree part is non-negative and subtracted when it is negative. -/
def gps_coord_spec (deg : Int) (minutes frac : Nat) : ℚ :=
  (deg : ℚ) +
    (if 0 ≤ deg then 1 else -1) * (((minutes : ℚ) + (frac : ℚ) * (1 / 10000)) / 60)

theorem parse465_eq_spec (payload : List Nat) (hlen : payload.length = 8) :
    parse_frame 0x465 payload = .ok (some (._465
      (gps_coord_spec ((get_number (u64_from_be_bytes payload) 0 8 : Int) - 89)
        (get_number (u64_from_be_bytes payload) 8 6)
        (get_number (u64_from_be_bytes payload) 16 14))
      (gps_coord_spec ((get_number (u64_from_be_bytes payload) 32 9 : Int) - 179)
        (get_number (u64_from_be_bytes payload) 41 6)
        (get_number (u64_from_be_bytes payload) 48 14)))) := by
  unfold parse_frame
  rw [if_pos hlen]
  set d := u64_from_be_bytes payload with hd
  have h8 : i16_of_u64 (get_number d 0 8) = (get_number d 0 8 : Int) :=
    i16_of_u64_small _ (lt_of_lt_of_le (get_number_lt d 0 8) (by norm_num))
  have h9 : i16_of_u64 (get_number d 32 9) = (get_number d 32 9 : Int) :=
    i16_of_u64_small _ (lt_of_lt_of_le (get_number_lt d 32 9) (by norm_num))
  simp only [parseById]
  norm_num
  unfold parse465
  rw [h8, h9]
  simp only [Except.ok.injEq, Option.some.injEq, ParsedFrame._465.injEq]
  constructor
  · by_cases hneg : (get_number d 0 8 : Int) - 89 < 0
    · rw [if_pos hneg]
      unfold gps_coord_spec
      rw [if_neg (by omega)]
      push_cast
      ring
    · rw [if_neg hneg]
      unfold gps_coord_spec
      rw [if_pos (by omega)]
      push_cast
      ring
  · by_cases hneg : (get_number d 32 9 : Int) - 179 < 0
    · rw [if_pos hneg]
      unfold gps_coord_spec
      rw [if_neg (by omega)]
      push_cast
      ring
    · rw [if_neg hneg]
      unfold gps_coord_spec
      rw [if_pos (by omega)]
      push_cast
      ring

/-! # Claims -/

/-- C1: for every 8-byte payload with identifier 0x465, decoding produces
latitude and longitude as `degrees + (minutes + frac*0.0001)/60` with the
integer-degree part bias-subtracted (89 for latitude, 179 for longitude) and
the minutes term added for a non-negative integer-degree part and subtracted
for a negative one; in particular a latitude byte of 89 with zero minutes and
zero fraction decodes to exactly 0.0 degrees. -/
theorem gps_two_stage_decode (payload : List Nat) (hlen : payload.length = 8) :
    parse_frame 0x465 payload = .ok (some (._465
      (gps_coord_spec ((get_number (u64_from_be_bytes payload) 0 8 : Int) - 89)
        (get_number (u64_from_be_bytes payload) 8 6)
        (get_number (u64_from_be_bytes payload) 16 14))
      (gps_coord_spec ((get_number (u64_from_be_bytes payload) 32 9 : Int) - 179)
        (get_number (u64_from_be_bytes payload) 41 6)
        (get_number (u64_from_be_bytes payload) 48 14)))) ∧
    parse_frame 0x465 [89, 0, 0, 0, 0, 0, 0, 0] = .ok (some (._465 0 (-179))) := by
  refine ⟨parse465_eq_spec payload hlen, ?_⟩
  rw [parse465_eq_spec [89, 0, 0, 0, 0, 0, 0, 0] rfl]
  have e1 : get_number (u64_from_be_bytes [89, 0, 0, 0, 0, 0, 0, 0]) 0 8 = 89 := by decide
  have e2 : get_number (u64_from_be_bytes [89, 0, 0, 0, 0, 0, 0, 0]) 8 6 = 0 := by decide
  have e3 : get_number (u64_from_be_bytes [89, 0, 0, 0, 0, 0, 0, 0]) 16 14 = 0 := by decide
  have e4 : get_number (u64_from_be_bytes [89, 0, 0, 0, 0, 0, 0, 0]) 32 9 = 0 := by decide
  have e5 : get_number (u64_from_be_bytes [89, 0, 0, 0, 0, 0, 0, 0]) 41 6 = 0 := by decide
  have e6 : get_number (u64_from_be_bytes [89, 0, 0, 0, 0, 0, 0, 0]) 48 14 = 0 := by decide
  rw [e1, e2, e3, e4, e5, e6]
  norm_num [gps_coord_spec]

/-- Witness for C1, at the claim's own example: a latitude byte of 89 with zero
minutes and fraction decodes to latitude 0.0 (and longitude byte 0 to -179). -/
theorem gps_two_stage_decode_witness :
    parse_frame 0x465 [89, 0, 0, 0, 0, 0, 0, 0] = .ok (some (._465 0 (-179))) :=
  (gps_two_stage_decode [89, 0, 0, 0, 0, 0, 0, 0] rfl).2

/-- C10: for every 64-bit payload value `d` and every offset `o`, width `w`
with `1 ≤ w ≤ 63` and `o + w ≤ 64`, `get_number d o w` equals
`(d >> (64-o-w)) & ((1<<w)-1) = d / 2^(64-o-w) % 2^w` and is strictly below
`2^w`; the shift distance `64 - o - w` does not underflow (it agrees with the
exact integer difference) and `1 << w` does not overflow a u64. -/
theorem get_number_bit_field (d o w : Nat) (hd : d < 2 ^ 64) (h1 : 1 ≤ w)
    (h2 : w ≤ 63) (h3 : o + w ≤ 64) :
    get_number d o w = d / 2 ^ (64 - o - w) % 2 ^ w ∧
    get_number d o w < 2 ^ w ∧
    ((64 - o - w : Nat) : Int) = 64 - (o : Int) - (w : Int) ∧
    1 <<< w ≤ 2 ^ 63 := by
  refine ⟨get_number_eq_div_mod d o w, get_number_lt d o w, ?_, ?_⟩
  · omega
  · rw [Nat.shiftLeft_eq, one_mul]
    exact Nat.pow_le_pow_right (by norm_num) h2

/-- Witness for C10 at a concrete input. -/
theorem get_number_bit_field_witness :
    get_number 0xDEADBEEF00112233 8 6 = 0xDEADBEEF00112233 / 2 ^ (64 - 8 - 6) % 2 ^ 6 ∧
    get_number 0xDEADBEEF00112233 8 6 < 2 ^ 6 ∧
    ((64 - 8 - 6 : Nat) : Int) = 64 - (8 : Int) - (6 : Int) ∧
    1 <<< 6 ≤ 2 ^ 63 :=
  get_number_bit_field 0xDEADBEEF00112233 8 6 (by norm_num) (by norm_num)
    (by norm_num) (by norm_num)

/-- C2 counterexample: decoding is not total.  A recognized identifier (0x084)
with the all-zero 8-byte payload panics (its ordinal-day field is 0, which
`NaiveDate::from_yo_opt(..).unwrap()` rejects), and any payload shorter than
8 bytes panics in `try_into().unwrap()` before the identifier is even
examined, so even unrecognized identifiers can fail. -/
theorem parse_frame_total_counterexample :
    parse_frame 0x084 [0, 0, 0, 0, 0, 0, 0, 0] = .error () ∧
    parse_frame 0x000 [] = .error () :=
  ⟨by decide, by decide⟩

/-- C2 amended: for every identifier and every exactly-8-byte payload,
decoding by the pure function `parse_frame` is deterministic; it cannot fail
unless the identifier is one of the calendar messages (0x084, 0x466, 0x472,
0x473), whose invalid date/time field combinations panic; and an unrecognized
identifier returns "no measurement" and never fails.  (Payloads that are not
exactly 8 bytes always fail.) -/
theorem parse_frame_total_amended (id : Nat) (payload : List Nat)
    (hlen : payload.length = 8) (hid : id ∉ calendar_ids) :
    (∃ r, parse_frame id payload = .ok r) ∧
    (id ∉ recognized_ids → parse_frame id payload = .ok none) := by
  have h84 : id ≠ 0x084 := fun h => hid (by rw [h]; decide)
  have h466 : id ≠ 0x466 := fun h => hid (by rw [h]; decide)
  have h472 : id ≠ 0x472 := fun h => hid (by rw [h]; decide)
  have h473 : id ≠ 0x473 := fun h => hid (by rw [h]; decide)
  unfold parse_frame
  rw [if_pos hlen]
  unfold parseById
  constructor
  · rw [if_neg h84]
    by_cases h : id = 0x091
    · rw [if_pos h]; exact ⟨_, rfl⟩
    rw [if_neg h]
    by_cases h : id = 0x092
    · rw [if_pos h]; exact ⟨_, rfl⟩
    rw [if_neg h]
    by_cases h : id = 0x217
    · rw [if_pos h]; exact ⟨_, rfl⟩
    rw [if_neg h]
    by_cases h : id = 0x352
    · rw [if_pos h]; exact ⟨_, rfl⟩
    rw [if_neg h]
    by_cases h : id = 0x368
    · rw [if_pos h]; exact ⟨_, rfl⟩
    rw [if_neg h]
    by_cases h : id = 0x37B
    · rw [if_pos h]; exact ⟨_, rfl⟩
    rw [if_neg h]
    by_cases h : id = 0x430
    · rw [if_pos h]; exact ⟨_, rfl⟩
    rw [if_neg h]
    by_cases h : id = 0x43D
    · rw [if_pos h]; exact ⟨_, rfl⟩
    rw [if_neg h]
    by_cases h : id = 0x465
    · rw [if_pos h]; exact ⟨_, rfl⟩
    rw [if_neg h]
    rw [if_neg h466]
    by_cases h : id = 0x467
    · rw [if_pos h]; exact ⟨_, rfl⟩
    rw [if_neg h]
    rw [if_neg h472, if_neg h473]
    exact ⟨_, rfl⟩
  · intro hrec
    have n091 : id ≠ 0x091 := fun h => hrec (by rw [h]; decide)
    have n092 : id ≠ 0x092 := fun h => hrec (by rw [h]; decide)
    have n217 : id ≠ 0x217 := fun h => hrec (by rw [h]; decide)
    have n352 : id ≠ 0x352 := fun h => hrec (by rw [h]; decide)
    have n368 : id ≠ 0x368 := fun h => hrec (by rw [h]; decide)
    have n37B : id ≠ 0x37B := fun h => hrec (by rw [h]; decide)
    have n430 : id ≠ 0x430 := fun h => hrec (by rw [h]; decide)
    have n43D : id ≠ 0x43D := fun h => hrec (by rw [h]; decide)
    have n465 : id ≠ 0x465 := fun h => hrec (by rw [h]; decide)
    have n467 : id ≠ 0x467 := fun h => hrec (by rw [h]; decide)
    rw [if_neg h84, if_neg n091, if_neg n092, if_neg n217, if_neg n352,
      if_neg n368, if_neg n37B, if_neg n430, if_neg n43D, if_neg n465,
      if_neg h466, if_neg n467, if_neg h472, if_neg h473]

/-- Witness for the amended C2: identifier 0x7FF is unrecognized, so an
arbitrary 8-byte payload decodes to "no measurement" without failing. -/
theorem parse_frame_total_amended_witness :
    (∃ r, parse_frame 0x7FF [1, 2, 3, 4, 5, 6, 7, 8] = .ok r) ∧
    (0x7FF ∉ recognized_ids → parse_frame 0x7FF [1, 2, 3, 4, 5, 6, 7, 8] = .ok none) :=
  parse_frame_total_amended 0x7FF [1, 2, 3, 4, 5, 6, 7, 8] rfl (by decide)

/-- C6: calendar decoding uses two different epoch-year biases by message
family: the local-clock message (0x084) adds 2000 to its year field, while
the GPS-time (0x466) and charge-schedule (0x472, 0x473) messages add 2010 to
theirs. -/
theorem calendar_year_biases (payload : List Nat) (hlen : payload.length = 8) :
    (∀ dt : DateYO, parse_frame 0x084 payload = .ok (some (._084 dt)) →
      dt.year = (get_number (u64_from_be_bytes payload) 0 8 : Int) + 2000) ∧
    (∀ dt : DateYmdHms, parse_frame 0x466 payload = .ok (some (._466 dt)) →
      dt.year = (get_number (u64_from_be_bytes payload) 45 8 : Int) + 2010) ∧
    (∀ dt : DateYmdHm, parse_frame 0x472 payload = .ok (some (._472 dt)) →
      dt.year = (get_number (u64_from_be_bytes payload) 56 8 : Int) + 2010) ∧
    (∀ dt : DateYmdHm, parse_frame 0x473 payload = .ok (some (._473 dt)) →
      dt.year = (get_number (u64_from_be_bytes payload) 56 8 : Int) + 2010) := by
  refine ⟨fun dt h => ?_, fun dt h => ?_, fun dt h => ?_, fun dt h => ?_⟩
  · unfold parse_frame at h
    rw [if_pos hlen] at h
    unfold parseById at h
    norm_num at h
    simp only [parse084] at h
    split at h
    · simp only [Except.ok.injEq, Option.some.injEq, ParsedFrame._084.injEq] at h
      rw [← h]
    · simp at h
  · unfold parse_frame at h
    rw [if_pos hlen] at h
    unfold parseById at h
    norm_num at h
    simp only [parse466] at h
    split at h
    · simp only [Except.ok.injEq, Option.some.injEq, ParsedFrame._466.injEq] at h
      rw [← h]
    · simp at h
  · unfold parse_frame at h
    rw [if_pos hlen] at h
    unfold parseById at h
    norm_num at h
    cases hpc : parseCharge (u64_from_be_bytes payload) with
    | error e => rw [hpc] at h; simp [Except.map] at h
    | ok o =>
        rw [hpc] at h
        cases o with
        | none => simp [Except.map] at h
        | some c =>
            simp only [Except.map, Option.map, Except.ok.injEq, Option.some.injEq,
              ParsedFrame._472.injEq] at h
            subst h
            simp only [parseCharge] at hpc
            split at hpc
            · simp only [Except.ok.injEq, Option.some.injEq] at hpc
              rw [← hpc]
            · simp at hpc
  · unfold parse_frame at h
    rw [if_pos hlen] at h
    unfold parseById at h
    norm_num at h
    cases hpc : parseCharge (u64_from_be_bytes payload) with
    | error e => rw [hpc] at h; simp [Except.map] at h
    | ok o =>
        rw [hpc] at h
        cases o with
        | none => simp [Except.map] at h
        | some c =>
            simp only [Except.map, Option.map, Except.ok.injEq, Option.some.injEq,
              ParsedFrame._473.injEq] at h
            subst h
            simp only [parseCharge] at hpc
            split at hpc
            · simp only [Except.ok.injEq, Option.some.injEq] at hpc
              rw [← hpc]
            · simp at hpc

/-- Witness for C6: concrete successfully-decoded payloads for each of the
four calendar messages, exhibiting the +2000 and +2010 biases. -/
theorem calendar_year_biases_witness :
    (DateYO.year ⟨2000, 1, 0, 0, 0⟩ =
      (get_number (u64_from_be_bytes [0, 0, 0, 1, 0, 0, 0, 0]) 0 8 : Int) + 2000) ∧
    (DateYmdHms.year ⟨2010, 1, 1, 0, 0, 0⟩ =
      (get_number (u64_from_be_bytes [0, 0, 0, 0, 0, 0, 0, 0]) 45 8 : Int) + 2010) ∧
    (DateYmdHm.year ⟨2010, 1, 1, 0, 0⟩ =
      (get_number (u64_from_be_bytes [0, 0, 0, 0, 0, 1, 1, 0]) 56 8 : Int) + 2010) :=
  ⟨(calendar_year_biases [0, 0, 0, 1, 0, 0, 0, 0] rfl).1 ⟨2000, 1, 0, 0, 0⟩ (by decide),
   (calendar_year_biases [0, 0, 0, 0, 0, 0, 0, 0] rfl).2.1 ⟨2010, 1, 1, 0, 0, 0⟩ (by decide),
   (calendar_year_biases [0, 0, 0, 0, 0, 1, 1, 0] rfl).2.2.1 ⟨2010, 1, 1, 0, 0⟩ (by decide)⟩

/-- C3: for every frame, timestamp and interface name, the formatted log line
is byte-exact `(<sec>.<usec:06>) <iface> <ID>#<BODY>\n` with the ID rendered
as 3 zero-padded uppercase hex digits for standard identifiers and 8 for
extended, and BODY = `R` for remote frames or the uppercase-hex payload for
data frames (the claim constrains data and remote frames; error frames also
follow the template, with the payload hex as BODY). -/
theorem log_line_byte_exact (f : CanFrame) (tMicros : Nat) (iface : String)
    (hk : f.kind ≠ .error) :
    logLine iface f tMicros = logLineSpec iface f tMicros := by
  cases f with
  | mk id ext kind payload =>
      cases kind
      · cases ext <;> rfl
      · cases ext <;> rfl
      · exact absurd rfl hk

/-- Witness for C3, at the claim's own example: standard data frame 0x123 with
payload DE AD BE EF 00 11 22 33 at 1.000000 s on "can0". -/
theorem log_line_byte_exact_witness :
    logLine "can0" ⟨0x123, false, .data, [0xDE, 0xAD, 0xBE, 0xEF, 0x00, 0x11, 0x22, 0x33]⟩
      1000000 = "(1.000000) can0 123#DEADBEEF00112233\n" :=
  (log_line_byte_exact ⟨0x123, false, .data, [0xDE, 0xAD, 0xBE, 0xEF, 0x00, 0x11, 0x22, 0x33]⟩
    1000000 "can0" (by decide)).trans (by decide)

/-! ## Capturing-loop step lemmas (shared helpers) -/

theorem capStep_timedOut (T maxLines : Nat) (c lines : Nat) :
    capStep T maxLines true ⟨c + 1, lines⟩ .empty .timedOut =
      (if c = T * 2 - 2 then .cont ⟨c, lines⟩ [.flush] else .cont ⟨c, lines⟩ []) := by
  simp [capStep]

theorem capStep_timedOut_zero (T maxLines lines : Nat) :
    capStep T maxLines true ⟨0, lines⟩ .empty .timedOut = .rotate [] := by
  simp [capStep]

theorem capStep_frame (T maxLines : Nat) (s : CapState) (f : CanFrame) (cl : Nat) :
    capStep T maxLines true s .empty (.frame f cl) =
      if s.lines + 1 ≥ maxLines then .rotate [.frame f cl, .exit]
      else .cont ⟨T * 2, s.lines + 1⟩ [.frame f cl] := by
  simp [capStep]

theorem idleTicks_succ (T maxLines : Nat) (s : CapState) (n : Nat) :
    idleTicks T maxLines s (n + 1) =
      match capStep T maxLines true s .empty .timedOut with
      | .cont s' sent => (sent :: (idleTicks T maxLines s' n).1, (idleTicks T maxLines s' n).2)
      | .rotate sent => ([sent], true)
      | .die sent => ([sent], true) := rfl

/-- Once the countdown is at or below `2T - 2` the bus-silence run sends
nothing more: it decrements to zero and the next timed-out read rotates. -/
theorem idleTicks_low (T maxLines : Nat) :
    ∀ c lines, c ≤ 2 * T - 2 →
      idleTicks T maxLines ⟨c, lines⟩ (c + 1) = (List.replicate c [] ++ [[]], true) := by
  intro c
  induction c with
  | zero =>
      intro lines h
      rw [idleTicks_succ, capStep_timedOut_zero]
      rfl
  | succ c ih =>
      intro lines h
      have hc : ¬ (c = T * 2 - 2) := by omega
      rw [idleTicks_succ, capStep_timedOut, if_neg hc]
      simp only [ih lines (by omega)]
      simp [List.replicate_succ]

/-- The full bus-silence trace from a freshly seeded countdown: the first
timed-out read sends nothing, the second sends the flush, the following
`2T - 2` send nothing, and the `(2T+1)`-th rotates. -/
theorem idleTicks_trace (T maxLines lines : Nat) (hT : 1 ≤ T) :
    idleTicks T maxLines ⟨T * 2, lines⟩ (T * 2 + 1) =
      (([] : List LogMessage) :: [LogMessage.flush] :: (List.replicate (T * 2 - 2) [] ++ [[]]),
        true) := by
  obtain ⟨c, hc⟩ : ∃ c, T * 2 = c + 2 := ⟨T * 2 - 2, by omega⟩
  have hlow := idleTicks_low T maxLines c lines (by omega)
  have h2 : idleTicks T maxLines ⟨c + 1, lines⟩ (c + 2) =
      ([LogMessage.flush] :: (List.replicate c [] ++ [[]]), true) := by
    rw [show c + 2 = (c + 1) + 1 from rfl, idleTicks_succ, capStep_timedOut,
      if_pos (show c = T * 2 - 2 by omega)]
    simp only [hlow]
  have h3 : idleTicks T maxLines ⟨c + 2, lines⟩ (c + 2 + 1) =
      (([] : List LogMessage) :: [LogMessage.flush] :: (List.replicate c [] ++ [[]]), true) := by
    rw [idleTicks_succ, capStep_timedOut, if_neg (show ¬ (c + 1 = T * 2 - 2) by omega)]
    simp only [h2]
  rw [show T * 2 - 2 = c by omega, show T * 2 + 1 = c + 2 + 1 by omega, hc]
  exact h3

/-- C4 counterexample: with the default idle-timeout T = 15 (countdown seeded
at 30) the single proactive flush is sent on the 2nd consecutive timed-out
read, while rotation happens on the 31st; the reads two ticks before the
countdown expires (the 29th and 30th) send nothing.  So the flush is requested
two ticks *after the countdown is seeded*, not two ticks before it expires. -/
theorem idle_flush_timing_counterexample :
    (idleTicks 15 100 ⟨30, 1⟩ 31).2 = true ∧
    (idleTicks 15 100 ⟨30, 1⟩ 31).1.length = 31 ∧
    (idleTicks 15 100 ⟨30, 1⟩ 31).1[1]? = some [LogMessage.flush] ∧
    (idleTicks 15 100 ⟨30, 1⟩ 31).1[28]? = some [] ∧
    (idleTicks 15 100 ⟨30, 1⟩ 31).1[29]? = some [] := by decide

/-- C4 (amended): in the Capturing state with configured idle-timeout T, the
countdown is seeded at 2T read-timeout ticks when capture starts and is
decremented on every timed-out read; the proactive flush is requested on the
second consecutive timed-out read (when the countdown has just decremented to
2T-2), which is two ticks after the countdown is seeded rather than two ticks
before it expires; and the pipeline rotates the log on the timed-out read that
finds the countdown at zero — the (2T+1)-th consecutive one. -/
theorem idle_countdown_amended (T maxLines lines : Nat) (alive : Bool)
    (q : ErrQueue) (f : CanFrame) (cl : Nat) (hT : 1 ≤ T) :
    pipeStep T maxLines alive .idle q (.frame f cl) =
      (.capturing ⟨T * 2, 1⟩, [.frame f cl]) ∧
    idleTicks T maxLines ⟨T * 2, lines⟩ (T * 2 + 1) =
      (([] : List LogMessage) :: [LogMessage.flush] ::
        (List.replicate (T * 2 - 2) [] ++ [[]]), true) :=
  ⟨rfl, idleTicks_trace T maxLines lines hT⟩

/-- Witness for the amended C4 at the default configuration T = 15. -/
theorem idle_countdown_amended_witness :
    pipeStep 15 100 true .idle .empty (.frame ⟨0x123, false, .data, []⟩ 7) =
      (.capturing ⟨30, 1⟩, [.frame ⟨0x123, false, .data, []⟩ 7]) ∧
    idleTicks 15 100 ⟨30, 1⟩ 31 =
      (([] : List LogMessage) :: [LogMessage.flush] :: (List.replicate 28 [] ++ [[]]), true) :=
  idle_countdown_amended 15 100 1 true .empty ⟨0x123, false, .data, []⟩ 7 (by norm_num)

/-- C5: when the open file's line counter reaches the configured ceiling the
loop rotates immediately after forwarding the current frame (the frame is
still sent, followed by Exit); with max-lines = 3 the first file receives
exactly the first 3 frames and the 4th frame lands in the next file. -/
theorem line_count_ceiling (T : Nat) (s : CapState) (f : CanFrame) (cl : Nat)
    (a b c d : CanFrame × Nat) (rest : List (CanFrame × Nat)) :
    (capStep T 3 true s .empty (.frame f cl) =
      if s.lines + 1 ≥ 3 then .rotate [.frame f cl, .exit]
      else .cont ⟨T * 2, s.lines + 1⟩ [.frame f cl]) ∧
    runFiles 3 (a :: b :: c :: d :: rest) = [a, b, c] :: runFiles 3 (d :: rest) := by
  constructor
  · exact capStep_frame T 3 s f cl
  · simp [runFiles, fillFile]

/-! ## Timestamp handling helpers -/

theorem nonDecr_append_left : ∀ l1 l2 : List Nat, nonDecr (l1 ++ l2) = true → nonDecr l1 = true
  | [], _, _ => rfl
  | [_], _, _ => rfl
  | a :: b :: r, l2, h => by
      simp only [List.cons_append, nonDecr, Bool.and_eq_true] at h ⊢
      exact ⟨h.1, nonDecr_append_left (b :: r) l2 h.2⟩

/-- In any capturing run with a healthy worker, the timestamps of the
forwarded `Frame` messages are exactly the attached clock readings, an initial
segment of the reads' clock values (the run may stop early at a rotate). -/
theorem capRun_clocks (T maxLines : Nat) :
    ∀ (reads : List ReadResult) (s : CapState),
      ∃ t, readClocks reads = sentTimestamps (capRun T maxLines s reads) ++ t := by
  intro reads
  induction reads with
  | nil => exact fun s => ⟨[], rfl⟩
  | cons rd rest ih =>
      intro s
      cases rd with
      | frame f c =>
          simp only [capRun, capStep_frame]
          by_cases hl : s.lines + 1 ≥ maxLines
          · rw [if_pos hl]
            exact ⟨readClocks rest, by simp [readClocks, sentTimestamps]⟩
          · rw [if_neg hl]
            obtain ⟨t, ht⟩ := ih ⟨T * 2, s.lines + 1⟩
            refine ⟨t, ?_⟩
            simp only [readClocks, sentTimestamps, List.filterMap_cons, List.filterMap_append] at ht ⊢
            simp [ht]
      | timedOut =>
          obtain ⟨st, sl⟩ := s
          cases st with
          | zero =>
              rw [capRun, capStep_timedOut_zero]
              exact ⟨readClocks rest, by simp [readClocks, sentTimestamps]⟩
          | succ c =>
              rw [capRun, capStep_timedOut]
              by_cases hc : c = T * 2 - 2
              · rw [if_pos hc]
                obtain ⟨t, ht⟩ := ih ⟨c, sl⟩
                refine ⟨t, ?_⟩
                simp only [readClocks, sentTimestamps, List.filterMap_cons,
                  List.filterMap_append] at ht ⊢
                simp [ht]
              · rw [if_neg hc]
                obtain ⟨t, ht⟩ := ih ⟨c, sl⟩
                refine ⟨t, ?_⟩
                simp only [readClocks, sentTimestamps, List.filterMap_cons,
                  List.filterMap_append] at ht ⊢
                simp [ht]
      | interrupted =>
          rw [capRun, show capStep T maxLines true s .empty .interrupted = .cont s [] from rfl]
          obtain ⟨t, ht⟩ := ih s
          refine ⟨t, ?_⟩
          simp only [readClocks, sentTimestamps, List.filterMap_cons,
            List.filterMap_append] at ht ⊢
          simp [ht]
      | fatal =>
          rw [capRun, show capStep T maxLines true s .empty .fatal = .die [] from rfl]
          exact ⟨readClocks rest, by simp [readClocks, sentTimestamps]⟩

/-- C7 counterexample: the pipeline attaches the raw
`SystemTime::now().duration_since(UNIX_EPOCH)` reading of each read, with no
clamping.  If the wall clock regresses from 5 to 3 between two frames, the
logged timestamps are [5, 3]: not non-decreasing, and not the clamped [5, 5]
the claim describes. -/
theorem timestamp_clamp_counterexample :
    sentTimestamps (capRun 15 100 ⟨30, 1⟩
      [.frame ⟨0x123, false, .data, []⟩ 5, .frame ⟨0x124, false, .data, []⟩ 3]) = [5, 3] ∧
    nonDecr [5, 3] = false ∧
    ([5, 3] : List Nat) ≠ [5, 5] := by decide

/-- C7 (amended): the timestamps attached to successive logged frames within
one capture session are exactly the raw clock readings at the successful
reads (an initial segment of them, as rotation can end the session); no
clamping is performed, so they are monotonic non-decreasing whenever the clock
readings themselves are — but a clock regression is passed through to the
log. -/
theorem timestamps_raw_monotone (T maxLines : Nat) (s : CapState)
    (reads : List ReadResult)
    (hmono : nonDecr (readClocks reads) = true) :
    (∃ t, readClocks reads = sentTimestamps (capRun T maxLines s reads) ++ t) ∧
    nonDecr (sentTimestamps (capRun T maxLines s reads)) = true := by
  obtain ⟨t, ht⟩ := capRun_clocks T maxLines reads s
  exact ⟨⟨t, ht⟩, nonDecr_append_left _ t (ht ▸ hmono)⟩

/-- Witness for the amended C7: with clock readings 3 then 5 the logged
timestamps are non-decreasing. -/
theorem timestamps_raw_monotone_witness :
    nonDecr (sentTimestamps (capRun 15 100 ⟨30, 1⟩
      [.frame ⟨0x123, false, .data, []⟩ 3, .frame ⟨0x124, false, .data, []⟩ 5])) = true :=
  (timestamps_raw_monotone 15 100 ⟨30, 1⟩
    [.frame ⟨0x123, false, .data, []⟩ 3, .frame ⟨0x124, false, .data, []⟩ 5] (by decide)).2

/-- C8: every per-file fatal condition — a WriterDegenerate zero-byte write
(reported on the error queue as `Error("Wrote 0 bytes to log")`), a WriterIO
disk failure (`IOError`), or a lost worker (ChannelBroken: a disconnected
report queue, or a failed forward send) — forces rotation of the current log
file and never terminates the process: the pipeline sends Exit, reports the
condition, and returns to idle to wait for the next frame.  The last conjunct
shows the worker generating the WriterDegenerate report (and stopping) on a
zero-byte write. -/
theorem fatal_rotates_never_terminates (T maxLines : Nat) (alive : Bool)
    (s : CapState) (rd : ReadResult) (msg : String) (f : CanFrame) (cl : Nat)
    (st : WorkerState) (logRes : CanFrame → Nat → LogResult) (flushOk rAlive : Bool)
    (hnf : f.kind ≠ .error) (hlog0 : logRes f cl = .ok 0) :
    pipeStep T maxLines alive (.capturing s) (.recv (.error msg)) rd = (.idle, [.exit]) ∧
    pipeStep T maxLines alive (.capturing s) (.recv .ioError) rd = (.idle, [.exit]) ∧
    pipeStep T maxLines alive (.capturing s) .disconnected rd = (.idle, [.exit]) ∧
    pipeStep T maxLines false (.capturing s) .empty (.frame f cl) = (.idle, [.exit]) ∧
    workerStep logRes flushOk rAlive st (some (.frame f cl)) =
      .stop st [.error "Wrote 0 bytes to log"] := by
  refine ⟨rfl, rfl, rfl, rfl, ?_⟩
  simp [workerStep, hnf, hlog0]

/-- Witness for C8 at a concrete configuration, frame, and log outcome. -/
theorem fatal_rotates_never_terminates_witness :
    pipeStep 15 3 true (.capturing ⟨30, 1⟩) (.recv (.error "boom")) .timedOut =
      (.idle, [.exit]) ∧
    pipeStep 15 3 true (.capturing ⟨30, 1⟩) (.recv .ioError) .timedOut = (.idle, [.exit]) ∧
    pipeStep 15 3 true (.capturing ⟨30, 1⟩) .disconnected .timedOut = (.idle, [.exit]) ∧
    pipeStep 15 3 false (.capturing ⟨30, 1⟩) .empty
      (.frame ⟨0x123, false, .data, []⟩ 7) = (.idle, [.exit]) ∧
    workerStep (fun _ _ => .ok 0) true true ⟨[]⟩
      (some (.frame ⟨0x123, false, .data, []⟩ 7)) =
      .stop ⟨[]⟩ [.error "Wrote 0 bytes to log"] :=
  fatal_rotates_never_terminates 15 3 true ⟨30, 1⟩ .timedOut "boom"
    ⟨0x123, false, .data, []⟩ 7 ⟨[]⟩ (fun _ _ => .ok 0) true true (by decide) rfl

/-- C9: an Error-kind frame received while capturing is recorded to the log —
the worker bubbles up a `CANError` report and then logs the frame like any
other — and the report is non-fatal: the control loop handles a `CANError`
report exactly like an empty error queue, so it never forces rotation. -/
theorem error_frames_recorded_nonfatal (f : CanFrame) (t n : Nat)
    (st : WorkerState) (logRes : CanFrame → Nat → LogResult) (flushOk : Bool)
    (T maxLines : Nat) (alive : Bool) (s : CapState) (rd : ReadResult)
    (hkind : f.kind = .error) (hlog : logRes f t = .ok n) (hn : n ≠ 0) :
    workerStep logRes flushOk true st (some (.frame f t)) =
      .cont ⟨st.file ++ [(f, t)]⟩ [.canError] ∧
    capStep T maxLines alive s (.recv .canError) rd =
      capStep T maxLines alive s .empty rd := by
  constructor
  · cases n with
    | zero => exact absurd rfl hn
    | succ m => simp [workerStep, hkind, hlog]
  · rfl

/-- Witness for C9: a concrete Error-kind frame is logged and reported, and a
`CANError` report leaves a concrete capturing step unchanged. -/
theorem error_frames_recorded_nonfatal_witness :
    workerStep (fun _ _ => .ok 40) true true ⟨[]⟩
      (some (.frame ⟨0x20, false, .error, [1, 2]⟩ 9)) =
      .cont ⟨[(⟨0x20, false, .error, [1, 2]⟩, 9)]⟩ [.canError] ∧
    capStep 15 100 true ⟨30, 1⟩ (.recv .canError) .timedOut =
      capStep 15 100 true ⟨30, 1⟩ .empty .timedOut :=
  error_frames_recorded_nonfatal ⟨0x20, false, .error, [1, 2]⟩ 9 40 ⟨[]⟩
    (fun _ _ => .ok 40) true 15 100 true ⟨30, 1⟩ .timedOut rfl rfl (by decide)
